import Mathlib

/-!
Verification of the jrpc crate (JSON-RPC 2.0 wire types) against its
specification. The Rust source in src/lib.rs defines the data types and
derives their serde (de)serialization; this file shallowly embeds those
types and the serde behaviour over a JSON value model mirroring
serde_json::Value, and proves the specified properties.
-/

namespace Jrpc

/-- JSON values, modelling serde_json::Value. Numbers mirror serde_json's
internal representation N = PosInt(u64) | NegInt(i64 with value < 0) |
Float(f64): `posInt` holds a non-negative integer (a u64 on the wire),
`negInt` a negative integer, and `float` stands for any floating-point
number (its payload is irrelevant to every codec in this crate: the
deserializers only ever reject floats without inspecting the value). -/
inductive Json where
  | null : Json
  | bool (b : Bool) : Json
  | posInt (n : Nat) : Json
  | negInt (n : Int) : Json
  | float : Json
  | str (s : String) : Json
  | arr (xs : List Json) : Json
  | obj (fs : List (String × Json)) : Json

/-- The single decode-failure kind: serde_json errors carry a message; the
spec calls every decode failure a FormatError parameterized by a
human-readable cause. -/
inductive FormatError where
  | mk (msg : String) : FormatError
  deriving DecidableEq, Repr

/-- Alias so that the constructor named String below can state its payload
type. -/
abbrev Str : Type := String

/-- The jsonrpc `id` field (src/lib.rs lines 45-49): a string, a u64
integer (modelled as Nat: every serde_json PosInt is a u64) or null. -/
inductive Id where
  | String (s : Str) : Id
  | Int (n : Nat) : Id
  | Null : Id
  deriving DecidableEq, Repr

deriving instance DecidableEq for Except

/-- impl From String for Id (src/lib.rs lines 51-55). -/
def Id.fromString (s : Str) : Id := Id.String s

/-- impl From u64 for Id (src/lib.rs lines 57-61). -/
def Id.fromU64 (n : Nat) : Id := Id.Int n

/-- Derived Serialize for the untagged enum Id: each variant serializes
its payload directly, with no tag (String s as a JSON string, Int n as a
JSON number, the unit variant Null as JSON null). -/
def Id.serialize : Id → Json
  | Id.String s => Json.str s
  | Id.Int n => Json.posInt n
  | Id.Null => Json.null

/-- The error serde reports when a value matches no variant of the
untagged enum Id. -/
def idMismatch : FormatError :=
  FormatError.mk "data did not match any variant of untagged enum Id"

/-- Derived Deserialize for the untagged enum Id: serde buffers the value
and tries each variant in declaration order (String, Int, Null); a JSON
string deserializes only as String, a non-negative number only as the u64
of Int, null only as the unit variant Null, and every other shape fails
every variant, producing the untagged-enum mismatch error. -/
def Id.deserialize : Json → Except FormatError Id
  | Json.str s => Except.ok (Id.String s)
  | Json.posInt n => Except.ok (Id.Int n)
  | Json.null => Except.ok Id.Null
  | _ => Except.error idMismatch

/-- The three variants of the untagged enum Id, as serde tries them. -/
inductive IdVariant where
  | VString : IdVariant
  | VInt : IdVariant
  | VNull : IdVariant
  deriving DecidableEq, Repr

/-- One attempt of serde's untagged deserialization: deserialize the
buffered value as a single variant of Id, yielding none when the value's
shape does not fit that variant (a string only fits String, a
non-negative number only fits the u64 of Int, null only fits the unit
variant Null). -/
def Id.tryVariant : IdVariant → Json → Option Id
  | IdVariant.VString, Json.str s => some (Id.String s)
  | IdVariant.VInt, Json.posInt n => some (Id.Int n)
  | IdVariant.VNull, Json.null => some Id.Null
  | _, _ => none

/-- serde's untagged strategy with an explicit trial order: try each
variant in turn, returning the first success, and fail with the
untagged-enum mismatch error when every variant has been tried. The
derived Deserialize is this at the declaration order String, Int,
Null. -/
def Id.deserializeOrder : List IdVariant → Json → Except FormatError Id
  | [], _ => Except.error idMismatch
  | v :: rest, j =>
      match Id.tryVariant v j with
      | some i => Except.ok i
      | none => Id.deserializeOrder rest j

/-- An error code (src/lib.rs lines 150-164). -/
inductive ErrorCode where
  | ParseError : ErrorCode
  | InvalidRequest : ErrorCode
  | MethodNotFound : ErrorCode
  | InvalidParams : ErrorCode
  | InternalError : ErrorCode
  | ServerError (v : Int) : ErrorCode
  deriving DecidableEq, Repr

/-- ErrorCode::is_valid (src/lib.rs lines 171-182): false only for a
ServerError outside the band -32099 to -32000. -/
def ErrorCode.is_valid : ErrorCode → Bool
  | ErrorCode.ServerError value =>
      if (-32099 ≤ value) ∧ (value ≤ -32000) then true else false
  | _ => true

/-- impl From i64 for ErrorCode (src/lib.rs lines 185-196): the five fixed
integers map to their symbolic variant, everything else to ServerError. -/
def ErrorCode.fromI64 (v : Int) : ErrorCode :=
  if v = -32700 then ErrorCode.ParseError
  else if v = -32600 then ErrorCode.InvalidRequest
  else if v = -32601 then ErrorCode.MethodNotFound
  else if v = -32602 then ErrorCode.InvalidParams
  else if v = -32603 then ErrorCode.InternalError
  else ErrorCode.ServerError v

/-- The jsonrpc version marker (src/lib.rs line 20): a unit struct. -/
inductive V2_0 where
  | mk : V2_0
  deriving DecidableEq, Repr

/-- Modelled from the spec: src/lib.rs line 13 declares `mod serialize;`
but the file src/serialize.rs holding the hand-written Serialize impl for
V2_0 is absent from the sources. Per spec section 4.1, encoding the
version marker produces the literal textual value "2.0". -/
def V2_0.serialize : V2_0 → Json := fun _ => Json.str "2.0"

/-- Modelled from the spec: src/serialize.rs (declared at src/lib.rs line
13) holding the hand-written Deserialize impl for V2_0 is absent from the
sources. Per spec section 4.1, decoding accepts a textual input and
succeeds only if the content equals exactly "2.0"; any other input fails
with a FormatError signaling an unsupported or missing protocol
version. -/
def V2_0.deserialize : Json → Except FormatError V2_0
  | Json.str s =>
      if s = "2.0" then Except.ok V2_0.mk
      else Except.error (FormatError.mk "unsupported or missing protocol version")
  | _ => Except.error (FormatError.mk "unsupported or missing protocol version")

/-- One hexadecimal digit, lowercase, as used by serde_json's \u escapes. -/
def hexDigit (n : Nat) : String :=
  String.singleton ("0123456789abcdef".toList.getD n '0')

/-- serde_json's escaping of one string character: quote and backslash get
a two-character escape, control characters below 0x20 get their short
escape or a \u00xx escape, everything else is emitted verbatim. -/
def escapeChar (c : Char) : String :=
  if c = Char.ofNat 34 then "\\\""
  else if c = Char.ofNat 92 then "\\\\"
  else if c = Char.ofNat 8 then "\\b"
  else if c = Char.ofNat 9 then "\\t"
  else if c = Char.ofNat 10 then "\\n"
  else if c = Char.ofNat 12 then "\\f"
  else if c = Char.ofNat 13 then "\\r"
  else if c.toNat < 32 then "\\u00" ++ hexDigit (c.toNat / 16) ++ hexDigit (c.toNat % 16)
  else String.singleton c

/-- serde_json's rendering of a string: a quoted literal with each
character escaped as needed. -/
def renderString (s : String) : String :=
  "\"" ++ String.join (s.toList.map escapeChar) ++ "\""

mutual

/-- serde_json::to_string in compact form: no whitespace, object fields in
the order serialized. The float branch is never reached by any codec in
this crate (nothing in the crate serializes a float), so its text is left
unspecified here. -/
def Json.render : Json → String
  | Json.null => "null"
  | Json.bool b => if b then "true" else "false"
  | Json.posInt n => toString n
  | Json.negInt n => toString n
  | Json.float => "0.0"
  | Json.str s => renderString s
  | Json.arr xs => "[" ++ Json.renderArr xs ++ "]"
  | Json.obj fs => "\x7b" ++ Json.renderObj fs ++ "\x7d"

/-- Comma-separated rendering of array elements. -/
def Json.renderArr : List Json → String
  | [] => ""
  | [x] => Json.render x
  | x :: y :: xs => Json.render x ++ "," ++ Json.renderArr (y :: xs)

/-- Comma-separated rendering of object members as quoted key, colon,
value. -/
def Json.renderObj : List (String × Json) → String
  | [] => ""
  | [(k, v)] => renderString k ++ ":" ++ Json.render v
  | (k, v) :: f :: fs => renderString k ++ ":" ++ Json.render v ++ "," ++ Json.renderObj (f :: fs)

end

/-- Look up a field of serde's buffered map by name, as the derived struct
Deserialize does: unknown keys are ignored, a repeated known key is a
duplicate-field error, a single occurrence yields its value. -/
def getField (name : String) : List (String × Json) → Except FormatError (Option Json)
  | [] => Except.ok none
  | (k, v) :: rest =>
      if k = name then
        match getField name rest with
        | Except.ok none => Except.ok (some v)
        | Except.ok (some _) => Except.error (FormatError.mk ("duplicate field " ++ name))
        | Except.error e => Except.error e
      else getField name rest

/-- A field the derived Deserialize requires: missing is a missing-field
error. -/
def requireField (name : String) (fs : List (String × Json)) : Except FormatError Json :=
  match getField name fs with
  | Except.ok none => Except.error (FormatError.mk ("missing field " ++ name))
  | Except.ok (some v) => Except.ok v
  | Except.error e => Except.error e

/-- Deserializing a plain String field (serde's String Deserialize):
succeeds exactly on a JSON string. -/
def deserializeString : Json → Except FormatError String
  | Json.str s => Except.ok s
  | _ => Except.error (FormatError.mk "invalid type: expected a string")

/-- serde's Deserialize for an Option field of a derived struct: a key
that is absent deserializes to None (serde special-cases Option fields as
defaulting), an explicit JSON null deserializes to None (Option's
visit_none runs before the payload type is consulted), and any other
value delegates to the payload type's deserializer, wrapping in Some. -/
def deserializeOptionField {T : Type} (deT : Json → Except FormatError T) :
    Option Json → Except FormatError (Option T)
  | none => Except.ok none
  | some Json.null => Except.ok none
  | some pj => (deT pj).map some

/-- Does a JSON object carry a field with the given key. -/
def Json.hasKey : Json → String → Bool
  | Json.obj fs, k => fs.any (fun f => f.1 == k)
  | _, _ => false

/-- serde's Serialize for the unit type: () serializes to JSON null. -/
def serializeUnit : Unit → Json := fun _ => Json.null

/-- serde's Deserialize for the unit type: () deserializes from JSON
null and from nothing else. -/
def deserializeUnit : Json → Except FormatError Unit
  | Json.null => Except.ok ()
  | _ => Except.error (FormatError.mk "invalid type: expected unit")

/-- serde's Deserialize for a u64 payload: succeeds exactly on a
non-negative JSON number. -/
def deserializeU64 : Json → Except FormatError Nat
  | Json.posInt n => Except.ok n
  | _ => Except.error (FormatError.mk "invalid type: expected u64")

/-- The jsonrpc Request object (src/lib.rs lines 92-97). -/
structure Request (T : Type) where
  jsonrpc : V2_0
  method : String
  params : Option T
  id : Id
  deriving DecidableEq, Repr

/-- Request::new (src/lib.rs lines 100-107): a request with no params. -/
def Request.new (T : Type) (id : Id) (method : String) : Request T :=
  { jsonrpc := V2_0.mk, method := method, params := none, id := id }

/-- Request::with_params (src/lib.rs lines 109-117). -/
def Request.with_params {T : Type} (id : Id) (method : String) (params : T) : Request T :=
  { jsonrpc := V2_0.mk, method := method, params := some params, id := id }

/-- Derived Serialize for Request (src/lib.rs line 63): fields in
declaration order; the params field has no skip attribute, so serde
serializes the Option as its payload when Some and as JSON null when
None — the key is always emitted. The payload type's Serialize is the
caller-supplied serT. -/
def Request.serialize {T : Type} (serT : T → Json) (r : Request T) : Json :=
  Json.obj
    [("jsonrpc", V2_0.serialize r.jsonrpc),
     ("method", Json.str r.method),
     ("params", match r.params with
                | some p => serT p
                | none => Json.null),
     ("id", Id.serialize r.id)]

/-- Derived Deserialize for Request (src/lib.rs line 63) over a buffered
JSON object: unknown fields ignored, duplicates rejected; jsonrpc decoded
by V2_0, method as a string, id by Id; the Option field params defaults
to None when the key is missing and serde's Option Deserialize maps JSON
null to None and otherwise delegates to the caller-supplied deT. -/
def Request.deserialize {T : Type} (deT : Json → Except FormatError T) :
    Json → Except FormatError (Request T)
  | Json.obj fs => do
      let jv ← requireField "jsonrpc" fs
      let _ ← V2_0.deserialize jv
      let mv ← requireField "method" fs
      let method ← deserializeString mv
      let pv ← getField "params" fs
      let params ← deserializeOptionField deT pv
      let iv ← requireField "id" fs
      let id ← Id.deserialize iv
      pure { jsonrpc := V2_0.mk, method := method, params := params, id := id }
  | _ => Except.error (FormatError.mk "invalid type: expected struct Request")

/-- The jsonrpc Result response (src/lib.rs lines 122-126). -/
structure Result (T : Type) where
  jsonrpc : V2_0
  result : T
  id : Id
  deriving DecidableEq, Repr

/-- Derived Serialize for Result (src/lib.rs line 120): the three fields
in declaration order. -/
def Result.serialize {T : Type} (serT : T → Json) (r : Result T) : Json :=
  Json.obj
    [("jsonrpc", V2_0.serialize r.jsonrpc),
     ("result", serT r.result),
     ("id", Id.serialize r.id)]

/-- Derived Deserialize for Result (src/lib.rs line 120): all three fields
required. -/
def Result.deserialize {T : Type} (deT : Json → Except FormatError T) :
    Json → Except FormatError (Result T)
  | Json.obj fs => do
      let jv ← requireField "jsonrpc" fs
      let _ ← V2_0.deserialize jv
      let rv ← requireField "result" fs
      let result ← deT rv
      let iv ← requireField "id" fs
      let id ← Id.deserialize iv
      pure { jsonrpc := V2_0.mk, result := result, id := id }
  | _ => Except.error (FormatError.mk "invalid type: expected struct Result")

/-- The jsonrpc Error object (src/lib.rs lines 142-146). -/
structure ErrorObject (T : Type) where
  code : ErrorCode
  message : String
  data : T
  deriving DecidableEq, Repr

/-- The jsonrpc Error response (src/lib.rs lines 130-134). Note that the
derive of Serialize and Deserialize above this struct is commented out at
src/lib.rs line 128, so the crate provides no encode or decode for this
type: only the bare data type exists. -/
structure Error (T : Type) where
  jsonrpc : V2_0
  error : ErrorObject T
  id : Id
  deriving DecidableEq, Repr

/-- serde's Serialize for a Vec of u32 values (the payload type of the
doctest at src/lib.rs lines 74-89): a JSON array of its elements. -/
def serializeVecU32 : List Nat → Json := fun l => Json.arr (l.map Json.posInt)

end Jrpc

namespace Jrpc

/-- Helper: Id decoding inverts Id encoding on every variant. -/
theorem Id.deserialize_serialize (i : Id) : Id.deserialize (Id.serialize i) = Except.ok i := by
  cases i <;> rfl

/-- Helper: the derived Request codec round-trips whenever the payload
codec round-trips and never encodes to JSON null (a null-encoding payload
in params would decode back as an absent params). -/
theorem request_roundtrip {T : Type} (serT : T → Json) (deT : Json → Except FormatError T)
    (hde : ∀ x : T, deT (serT x) = Except.ok x)
    (hnn : ∀ x : T, serT x ≠ Json.null)
    (r : Request T) :
    Request.deserialize deT (Request.serialize serT r) = Except.ok r := by
  obtain ⟨v2, method, params, id⟩ := r
  cases v2
  cases params with
  | none => cases id <;> rfl
  | some p =>
      have hd := hde p
      have hn := hnn p
      cases h : serT p <;>
        first
        | exact absurd h hn
        | (rw [h] at hd
           simp [Request.serialize, Request.deserialize, h, getField, requireField,
             deserializeString, deserializeOptionField, V2_0.serialize, V2_0.deserialize, hd,
             Id.deserialize_serialize, Except.bind, Except.map, Except.pure, bind, pure,
             Functor.map, Seq.seq])

/-- Helper: the derived Result codec round-trips whenever the payload
codec round-trips. -/
theorem result_roundtrip {T : Type} (serT : T → Json) (deT : Json → Except FormatError T)
    (hde : ∀ x : T, deT (serT x) = Except.ok x)
    (r : Result T) :
    Result.deserialize deT (Result.serialize serT r) = Except.ok r := by
  obtain ⟨v2, result, id⟩ := r
  cases v2
  have hd := hde result
  simp [Result.serialize, Result.deserialize, getField, requireField,
    V2_0.serialize, V2_0.deserialize, hd, Id.deserialize_serialize,
    Except.bind, Except.map, Except.pure, bind, pure, Functor.map, Seq.seq]

/-- C1: Id round-trip. For every u64 value n, decoding the JSON number n
as Id yields Id.Int n and encoding Id.Int n yields the number n; for
every string s, decoding the JSON string s yields Id.String s and
encoding reproduces the same JSON string; decoding JSON null yields
Id.Null and encoding Id.Null yields null. -/
theorem id_codec_roundtrip :
    (∀ n : Nat,
       Id.deserialize (Json.posInt n) = Except.ok (Id.Int n) ∧
       Id.serialize (Id.Int n) = Json.posInt n) ∧
    (∀ s : String,
       Id.deserialize (Json.str s) = Except.ok (Id.String s) ∧
       Id.serialize (Id.String s) = Json.str s) ∧
    (Id.deserialize Json.null = Except.ok Id.Null ∧
       Id.serialize Id.Null = Json.null) :=
  ⟨fun _ => ⟨rfl, rfl⟩, fun _ => ⟨rfl, rfl⟩, rfl, rfl⟩

/-- C2: ErrorCode from-integer conversion is total and maps each of the
five fixed integers to its symbolic variant, and every other integer —
inside or outside the -32099..-32000 band — to ServerError of that
integer. Totality is by construction: fromI64 is a Lean function on Int,
which contains every i64 value. -/
theorem errorcode_from_i64_total :
    (ErrorCode.fromI64 (-32700) = ErrorCode.ParseError) ∧
    (ErrorCode.fromI64 (-32600) = ErrorCode.InvalidRequest) ∧
    (ErrorCode.fromI64 (-32601) = ErrorCode.MethodNotFound) ∧
    (ErrorCode.fromI64 (-32602) = ErrorCode.InvalidParams) ∧
    (ErrorCode.fromI64 (-32603) = ErrorCode.InternalError) ∧
    (∀ v : Int, v ≠ -32700 → v ≠ -32600 → v ≠ -32601 → v ≠ -32602 → v ≠ -32603 →
       ErrorCode.fromI64 v = ErrorCode.ServerError v) := by
  refine ⟨by decide, by decide, by decide, by decide, by decide,
    fun v h1 h2 h3 h4 h5 => ?_⟩
  unfold ErrorCode.fromI64
  split_ifs <;> simp_all

/-- Witness for C2 at concrete inputs: a value inside the server-error
band and a value far outside it both map to ServerError. -/
theorem errorcode_from_i64_total_witness :
    ErrorCode.fromI64 (-32050) = ErrorCode.ServerError (-32050) ∧
    ErrorCode.fromI64 7 = ErrorCode.ServerError 7 :=
  ⟨errorcode_from_i64_total.2.2.2.2.2 (-32050)
      (by decide) (by decide) (by decide) (by decide) (by decide),
   errorcode_from_i64_total.2.2.2.2.2 7
      (by decide) (by decide) (by decide) (by decide) (by decide)⟩

/-- C3: is_valid returns true for every fixed symbolic variant
unconditionally, and for ServerError v it returns true iff
-32099 ≤ v ≤ -32000. It is a pure total Bool-valued function, so it never
fails and never modifies the value. -/
theorem errorcode_is_valid_spec :
    (ErrorCode.ParseError.is_valid = true) ∧
    (ErrorCode.InvalidRequest.is_valid = true) ∧
    (ErrorCode.MethodNotFound.is_valid = true) ∧
    (ErrorCode.InvalidParams.is_valid = true) ∧
    (ErrorCode.InternalError.is_valid = true) ∧
    (∀ v : Int, ((ErrorCode.ServerError v).is_valid = true ↔ (-32099 ≤ v ∧ v ≤ -32000))) := by
  refine ⟨rfl, rfl, rfl, rfl, rfl, fun v => ?_⟩
  unfold ErrorCode.is_valid
  split <;> simp_all

/-- C4: version marker exactness. Encoding always produces the textual
value 2.0; decoding a textual input succeeds iff the content is exactly
2.0, and fails with a FormatError on any other content (for example 2.1,
2, or 2.0 followed by a space). -/
theorem version_marker_exact :
    (∀ m : V2_0, V2_0.serialize m = Json.str "2.0") ∧
    (V2_0.deserialize (Json.str "2.0") = Except.ok V2_0.mk) ∧
    (∀ s : String, s ≠ "2.0" →
       V2_0.deserialize (Json.str s)
         = Except.error (FormatError.mk "unsupported or missing protocol version")) :=
  ⟨fun _ => rfl, rfl, fun _ h => by simp [V2_0.deserialize, h]⟩

/-- Witness for C4 at the concrete inputs named by the claim: 2.1, 2 and
2.0 followed by a space all fail to decode. -/
theorem version_marker_exact_witness :
    V2_0.deserialize (Json.str "2.1")
      = Except.error (FormatError.mk "unsupported or missing protocol version") ∧
    V2_0.deserialize (Json.str "2")
      = Except.error (FormatError.mk "unsupported or missing protocol version") ∧
    V2_0.deserialize (Json.str "2.0 ")
      = Except.error (FormatError.mk "unsupported or missing protocol version") :=
  ⟨version_marker_exact.2.2 "2.1" (by decide),
   version_marker_exact.2.2 "2" (by decide),
   version_marker_exact.2.2 "2.0 " (by decide)⟩

/-- C5 counterexample: the claim says encoding a Request whose params is
absent emits no params key at all, but the derive on src/lib.rs lines
92-97 has no skip attribute, so serde emits the key with an explicit JSON
null: the encoding of Request::new(Id::Int 0, "foo") carries the params
key, with value null. -/
theorem request_params_omission_counterexample :
    Json.hasKey (Request.serialize serializeUnit (Request.new Unit (Id.Int 0) "foo"))
        "params" = true ∧
    Request.serialize serializeUnit (Request.new Unit (Id.Int 0) "foo")
      = Json.obj [("jsonrpc", Json.str "2.0"), ("method", Json.str "foo"),
                  ("params", Json.null), ("id", Json.posInt 0)] :=
  ⟨rfl, rfl⟩

/-- C5 (amended): for every Request whose params field is absent (as
built by Request::new), encoding emits the params key with an explicit
JSON null; when params is set, the encoded payload appears under the
params key. -/
theorem request_params_null_encoding {T : Type} (serT : T → Json) :
    (∀ id : Id, ∀ method : String,
       Request.serialize serT (Request.new T id method)
         = Json.obj [("jsonrpc", Json.str "2.0"), ("method", Json.str method),
                     ("params", Json.null), ("id", Id.serialize id)]) ∧
    (∀ id : Id, ∀ method : String, ∀ p : T,
       Request.serialize serT (Request.with_params id method p)
         = Json.obj [("jsonrpc", Json.str "2.0"), ("method", Json.str method),
                     ("params", serT p), ("id", Id.serialize id)]) :=
  ⟨fun _ _ => rfl, fun _ _ _ => rfl⟩

/-- C6: decoding any negative integer, floating-point number, boolean,
array, or object as Id fails with the untagged-enum FormatError and
produces no variant. -/
theorem id_decode_rejects :
    (∀ n : Int, n < 0 → Id.deserialize (Json.negInt n) = Except.error idMismatch) ∧
    (Id.deserialize Json.float = Except.error idMismatch) ∧
    (∀ b : Bool, Id.deserialize (Json.bool b) = Except.error idMismatch) ∧
    (∀ xs : List Json, Id.deserialize (Json.arr xs) = Except.error idMismatch) ∧
    (∀ fs : List (String × Json), Id.deserialize (Json.obj fs) = Except.error idMismatch) :=
  ⟨fun _ _ => rfl, rfl, fun _ => rfl, fun _ => rfl, fun _ => rfl⟩

/-- Witness for C6 at the concrete negative integer -1. -/
theorem id_decode_rejects_witness :
    (-1 : Int) < 0 ∧ Id.deserialize (Json.negInt (-1)) = Except.error idMismatch :=
  ⟨by decide, id_decode_rejects.1 (-1) (by decide)⟩

/-- C7 counterexample: the round-trip law fails as stated. With the unit
payload (whose serde encoding is JSON null), the request built by
Request::with_params(Id::Int 4, "m", ()) encodes its params as null, and
decoding maps an explicit null params back to None, yielding the distinct
value Request::new(Id::Int 4, "m"): decode(encode(value)) is ok but not
equal to value. -/
theorem message_roundtrip_counterexample :
    Request.deserialize deserializeUnit
        (Request.serialize serializeUnit (Request.with_params (Id.Int 4) "m" ()))
      = Except.ok (Request.new Unit (Id.Int 4) "m") ∧
    decide (Request.new Unit (Id.Int 4) "m"
      = Request.with_params (Id.Int 4) "m" ()) = false :=
  ⟨rfl, rfl⟩

/-- C7 (amended): for every payload codec that round-trips, every
constructible Result value decodes from its encoding to the original
unconditionally, and every constructible Request value does so provided
additionally that the payload never encodes to JSON null (a params
payload encoding to null decodes back as an absent params). The Error
message shape is excluded: its Serialize and Deserialize derive is
commented out at src/lib.rs line 128, so the crate defines no encoding
or decoding for it at all. -/
theorem message_roundtrip_amended {T : Type} (serT : T → Json)
    (deT : Json → Except FormatError T)
    (hde : ∀ x : T, deT (serT x) = Except.ok x) :
    ((∀ x : T, serT x ≠ Json.null) →
       ∀ r : Request T, Request.deserialize deT (Request.serialize serT r) = Except.ok r) ∧
    (∀ r : Result T, Result.deserialize deT (Result.serialize serT r) = Except.ok r) :=
  ⟨fun hnn => request_roundtrip serT deT hde hnn, result_roundtrip serT deT hde⟩

/-- Witness for the amended C7 at concrete values: a Request and a Result
with the u64 payload codec, and a Result with the unit payload codec —
whose encoding is JSON null, exercising the Result half without the
no-null proviso. -/
theorem message_roundtrip_amended_witness :
    Request.deserialize deserializeU64
        (Request.serialize Json.posInt (Request.with_params (Id.Int 4) "m" 7))
      = Except.ok (Request.with_params (Id.Int 4) "m" 7) ∧
    Result.deserialize deserializeU64
        (Result.serialize Json.posInt
          { jsonrpc := V2_0.mk, result := 7, id := Id.Int 4 })
      = Except.ok { jsonrpc := V2_0.mk, result := 7, id := Id.Int 4 } ∧
    Result.deserialize deserializeUnit
        (Result.serialize serializeUnit
          { jsonrpc := V2_0.mk, result := (), id := Id.Int 4 })
      = Except.ok { jsonrpc := V2_0.mk, result := (), id := Id.Int 4 } :=
  ⟨(message_roundtrip_amended Json.posInt deserializeU64 (fun _ => rfl)).1
      (fun _ h => Json.noConfusion h) (Request.with_params (Id.Int 4) "m" 7),
   (message_roundtrip_amended Json.posInt deserializeU64 (fun _ => rfl)).2
      { jsonrpc := V2_0.mk, result := 7, id := Id.Int 4 },
   (message_roundtrip_amended serializeUnit deserializeUnit (fun _ => rfl)).2
      { jsonrpc := V2_0.mk, result := (), id := Id.Int 4 }⟩

/-- C8: encoding Request::with_params(Id::from(4), "CreateFoo", [1,2,3])
renders exactly the compact text with fields in declaration order
jsonrpc, method, params, id. -/
theorem request_encoding_exact :
    Json.render (Request.serialize serializeVecU32
        (Request.with_params (Id.fromU64 4) "CreateFoo" [1, 2, 3]))
      = "\x7b\"jsonrpc\":\"2.0\",\"method\":\"CreateFoo\",\"params\":[1,2,3],\"id\":4\x7d" :=
  rfl

/-- C9: ServerError is directly constructible carrying any of the five
fixed code integers, and each such value is invalid (validity depends
only on the -32099..-32000 band); moreover the from-integer conversion
never produces a ServerError carrying a fixed code integer, since those
integers map to the symbolic variants. -/
theorem servererror_fixed_codes :
    ((ErrorCode.ServerError (-32700)).is_valid = false) ∧
    ((ErrorCode.ServerError (-32600)).is_valid = false) ∧
    ((ErrorCode.ServerError (-32601)).is_valid = false) ∧
    ((ErrorCode.ServerError (-32602)).is_valid = false) ∧
    ((ErrorCode.ServerError (-32603)).is_valid = false) ∧
    (∀ v : Int,
      decide (ErrorCode.fromI64 v = ErrorCode.ServerError (-32700)) = false ∧
      decide (ErrorCode.fromI64 v = ErrorCode.ServerError (-32600)) = false ∧
      decide (ErrorCode.fromI64 v = ErrorCode.ServerError (-32601)) = false ∧
      decide (ErrorCode.fromI64 v = ErrorCode.ServerError (-32602)) = false ∧
      decide (ErrorCode.fromI64 v = ErrorCode.ServerError (-32603)) = false) := by
  refine ⟨by decide, by decide, by decide, by decide, by decide, fun v => ?_⟩
  unfold ErrorCode.fromI64
  split_ifs with h1 h2 h3 h4 h5 <;> simp_all

/-- C10: Id decoding never confuses textual and numeric shapes — every
JSON string, digits included, decodes to Id.String and never Id.Int — and
each JSON value fits at most one of the three variant shapes, so trying
the variants in any of the six possible orders yields exactly the result
of the derived declaration-order decoder. -/
theorem id_untagged_deterministic :
    (∀ s : String, Id.deserialize (Json.str s) = Except.ok (Id.String s)) ∧
    (∀ j : Json,
       (Id.tryVariant IdVariant.VString j).isSome.toNat
         + (Id.tryVariant IdVariant.VInt j).isSome.toNat
         + (Id.tryVariant IdVariant.VNull j).isSome.toNat ≤ 1) ∧
    (∀ j : Json,
       Id.deserializeOrder [IdVariant.VString, IdVariant.VInt, IdVariant.VNull] j
         = Id.deserialize j ∧
       Id.deserializeOrder [IdVariant.VString, IdVariant.VNull, IdVariant.VInt] j
         = Id.deserialize j ∧
       Id.deserializeOrder [IdVariant.VInt, IdVariant.VString, IdVariant.VNull] j
         = Id.deserialize j ∧
       Id.deserializeOrder [IdVariant.VInt, IdVariant.VNull, IdVariant.VString] j
         = Id.deserialize j ∧
       Id.deserializeOrder [IdVariant.VNull, IdVariant.VString, IdVariant.VInt] j
         = Id.deserialize j ∧
       Id.deserializeOrder [IdVariant.VNull, IdVariant.VInt, IdVariant.VString] j
         = Id.deserialize j) := by
  refine ⟨fun _ => rfl, fun j => ?_, fun j => ?_⟩
  · cases j <;> simp [Id.tryVariant]
  · cases j <;> exact ⟨rfl, rfl, rfl, rfl, rfl, rfl⟩

end Jrpc
